import Mathlib

/-!
# drm_study_demo: buffer objects, property resolution and the atomic mode switch

A shallow embedding of the three demos `modeset-atomic-crtc`,
`modeset-plane-test` and `modeset-double-buffer`.

Conventions of the embedding:

* C unsigned 32-bit values are `Nat`; a conversion that narrows a wider value
  is written with an explicit `% 2 ^ 32`.  The signed `int` loop counter of
  `modeset_fillColor` is an `Int` that is checked against `INT_MAX`.
* A pointer is a `Nat`, `0` being `NULL`.  A pointer to a `buffer_object` that
  the code tests against `NULL` is an `Option buffer_object`.
* Calls that leave the program (kernel, libdrm, libc, the Android log) are
  recorded, oldest first, in `World.trace`; what they answer is taken from a
  `Kernel` record, so that a statement quantified over `Kernel` speaks about
  every outcome of the calls.  Log calls are recorded with their format string.
* Dereferencing `NULL` and indexing an empty array are undefined behaviour;
  the functions that can do so return `none` (or `Step.fault`) there.
-/

namespace DrmStudy

/-! ## Data model -/

/-- The struct `buffer_object` of the three demos (the same in each). -/
structure buffer_object where
  fd : Int
  width : Nat
  height : Nat
  pitch : Nat
  pixel_format : Nat
  handle : Nat
  size : Nat
  vaddr : Nat
  fb_id : Nat
deriving DecidableEq

/-- The argument `struct drm_mode_create_dumb` of `DRM_IOCTL_MODE_CREATE_DUMB`
(kernel header `drm_mode.h`): six `__u32` fields and the `__u64` field `size`. -/
structure drm_mode_create_dumb where
  height : Nat
  width : Nat
  bpp : Nat
  flags : Nat
  handle : Nat
  pitch : Nat
  size : Nat
deriving DecidableEq

/-- The argument `struct drm_mode_map_dumb` of `DRM_IOCTL_MODE_MAP_DUMB`. -/
structure drm_mode_map_dumb where
  handle : Nat
  pad : Nat
  offset : Nat
deriving DecidableEq

/-- The argument `struct drm_mode_destroy_dumb` of
`DRM_IOCTL_MODE_DESTROY_DUMB`. -/
structure drm_mode_destroy_dumb where
  handle : Nat
deriving DecidableEq

/-- The fields of libdrm's `drmModePropertyRes` that `get_property_id` reads:
the numeric id and the name (a C string, here its characters before the NUL). -/
structure drmModePropertyRes where
  prop_id : Nat
  name : String
deriving DecidableEq

/-- The fields of libdrm's `drmModeModeInfo` that the demos read. -/
structure drmModeModeInfo where
  hdisplay : Nat
  vdisplay : Nat
deriving DecidableEq

/-- The fields of libdrm's `drmModeRes` that the demos read. -/
structure drmModeRes where
  crtcs : List Nat
  connectors : List Nat
deriving DecidableEq

/-- The fields of libdrm's `drmModeConnector` that the demos read. -/
structure drmModeConnector where
  modes : List drmModeModeInfo
deriving DecidableEq

/-- One call that leaves the program, with the arguments it was given.  The
libc functions `open` and `close` are `sys_open` and `sys_close` here. -/
inductive Call where
  | sys_open (path : String) (flags : Nat)
  | sys_close (fd : Int)
  | getchar
  | printf (fmt : String)
  | ALOGD (fmt : String)
  | ALOGE (fmt : String)
  | ALOGI (fmt : String)
  | drmModeGetResources (fd : Int)
  | drmModeFreeResources (res : drmModeRes)
  | drmSetClientCap (fd : Int) (capability value : Nat)
  | drmModeGetPlaneResources (fd : Int)
  | drmModeFreePlaneResources (planes : List Nat)
  | drmModeGetConnector (fd : Int) (connector_id : Nat)
  | drmModeFreeConnector (connector : drmModeConnector)
  | ioctl_create_dumb (fd : Int) (arg : drm_mode_create_dumb)
  | drmModeAddFB2 (fd : Int) (width height pixel_format : Nat)
      (handles pitches offsets : List Nat) (flags : Nat)
  | ioctl_map_dumb (fd : Int) (arg : drm_mode_map_dumb)
  | drm_mmap (addr length prot flags : Nat) (fd : Int) (offset : Nat)
  | drm_munmap (addr length : Nat)
  | drmModeRmFB (fd : Int) (fb_id : Nat)
  | ioctl_destroy_dumb (fd : Int) (arg : drm_mode_destroy_dumb)
  | drmModeObjectGetProperties (fd : Int) (object_id object_type : Nat)
  | drmModeFreeObjectProperties (props : List Nat)
  | drmModeGetProperty (fd : Int) (property_id : Nat)
  | drmModeFreeProperty (property : drmModePropertyRes)
  | drmModeCreatePropertyBlob (fd : Int) (mode : drmModeModeInfo)
  | drmModeAtomicAlloc
  | drmModeAtomicAddProperty (object_id property_id value : Nat)
  | drmModeAtomicCommit (fd : Int) (req : List (Nat × Nat × Nat)) (flags : Nat)
  | drmModeAtomicFree (req : List (Nat × Nat × Nat))
  | drmModeSetPlane (fd : Int) (plane_id crtc_id fb_id flags : Nat)
      (crtc_x crtc_y : Int) (crtc_w crtc_h src_x src_y src_w src_h : Nat)
deriving DecidableEq

/-- What the kernel, libdrm and libc answer to each call.  The functions take
the arguments of the call; a statement for every `Kernel` covers every answer. -/
structure Kernel where
  sys_open : String → Nat → Int
  drmModeGetResources : Int → Option drmModeRes
  drmModeGetPlaneResources : Int → Option (List Nat)
  drmModeGetConnector : Int → Nat → Option drmModeConnector
  ioctl_create_dumb : Int → drm_mode_create_dumb → Int × drm_mode_create_dumb
  drmModeAddFB2 : Int → Nat → Nat → Nat → List Nat → List Nat → List Nat → Nat → Int × Nat
  ioctl_map_dumb : Int → drm_mode_map_dumb → Int × drm_mode_map_dumb
  drm_mmap : Nat → Nat → Nat → Nat → Int → Nat → Option Nat
  drmModeRmFB : Int → Nat → Int
  ioctl_destroy_dumb : Int → drm_mode_destroy_dumb → Int
  drmModeObjectGetProperties : Int → Nat → Nat → Option (List Nat)
  drmModeGetProperty : Int → Nat → Option drmModePropertyRes
  drmModeCreatePropertyBlob : Int → drmModeModeInfo → Int × Nat
  drmModeAtomicCommit : Int → List (Nat × Nat × Nat) → Nat → Int
  drmModeSetPlane : Int → Nat → Nat → Nat → Nat → Int → Int → Nat → Nat → Nat → Nat → Nat → Nat → Int

/-- What the program can observe and change outside its own variables: the
calls issued so far, the 32-bit words of memory by byte address, and the
stores performed through a mapped pointer (address and value, oldest first). -/
structure World where
  trace : List Call
  mem : Nat → Nat
  stores : List (Nat × Nat)

/-- Record one call. -/
def World.emit (w : World) (c : Call) : World :=
  { w with trace := w.trace ++ [c] }

/-- Store a 32-bit word at a byte address. -/
def World.store (w : World) (addr val : Nat) : World :=
  { w with mem := fun a => if a = addr then val else w.mem a,
           stores := w.stores ++ [(addr, val)] }

/-- The world a demo starts in. -/
def World.init : World :=
  { trace := [], mem := fun _ => 0, stores := [] }

/-! ## Constants of the system headers -/

/-- The constant `INT_MAX` of a 32-bit `int`. -/
def INT_MAX : Int := 2147483647

/-- The constant `EINVAL` of `errno.h`. -/
def EINVAL : Int := 22

/-- The constant `O_RDWR` of `fcntl.h`. -/
def O_RDWR : Nat := 2

/-- The constant `O_CLOEXEC` of `fcntl.h`. -/
def O_CLOEXEC : Nat := 0x80000

/-- The constant `PROT_READ` of `sys/mman.h`. -/
def PROT_READ : Nat := 1

/-- The constant `PROT_WRITE` of `sys/mman.h`. -/
def PROT_WRITE : Nat := 2

/-- The constant `MAP_SHARED` of `sys/mman.h`. -/
def MAP_SHARED : Nat := 1

/-- The constant `DRM_FORMAT_XRGB8888` of `drm_fourcc.h`: the four-character
code X, R, 2, 4, little endian. -/
def DRM_FORMAT_XRGB8888 : Nat := 0x34325258

/-- The constant `DRM_CLIENT_CAP_UNIVERSAL_PLANES` of `drm.h`. -/
def DRM_CLIENT_CAP_UNIVERSAL_PLANES : Nat := 2

/-- The constant `DRM_CLIENT_CAP_ATOMIC` of `drm.h`. -/
def DRM_CLIENT_CAP_ATOMIC : Nat := 3

/-- The constant `DRM_MODE_ATOMIC_ALLOW_MODESET` of `drm_mode.h`. -/
def DRM_MODE_ATOMIC_ALLOW_MODESET : Nat := 0x0400

/-- The constant `DRM_MODE_OBJECT_CONNECTOR` of `drm_mode.h`. -/
def DRM_MODE_OBJECT_CONNECTOR : Nat := 0xc0c0c0c0

/-- The constant `DRM_MODE_OBJECT_CRTC` of `drm_mode.h`. -/
def DRM_MODE_OBJECT_CRTC : Nat := 0xcccccccc

/-! ## The buffer object functions -/

/-- The function `modeset_create_dumb` of `modeset-atomic-crtc.cpp` and
`modeset-plane-test.cpp`.  The result is the return value, the buffer object
behind `bo` and the world.  `bo->size = arg.size` narrows the `__u64` field to
`uint32_t`.  libdrm's `drmModeAddFB2` writes `*buf_id` when, and only when, it
returns 0. -/
def modeset_create_dumb (k : Kernel) (fd : Int) (width height depth bpp : Nat)
    (bo : buffer_object) (w : World) : Int × buffer_object × World :=
  let _ := depth
  let arg : drm_mode_create_dumb :=
    { height := height, width := width, bpp := bpp, flags := 0, handle := 0, pitch := 0,
      size := 0 }
  let w1 := w.emit (.ioctl_create_dumb fd arg)
  let r := k.ioctl_create_dumb fd arg
  if r.1 ≠ 0 then
    (-1, bo, w1.emit (.ALOGD ("Failed to create dumb buffer: %s")))
  else
    let arg1 := r.2
    let bo1 : buffer_object :=
      { bo with fd := fd, handle := arg1.handle, size := arg1.size % 2 ^ 32,
                pitch := arg1.pitch, width := arg1.width, height := arg1.height,
                pixel_format := DRM_FORMAT_XRGB8888 }
    let w2 := w1.emit (.ALOGD ("buffer object info [%d %u %u %u %u %u]"))
    let handles := [bo1.handle, 0, 0, 0]
    let pitches := [bo1.pitch, 0, 0, 0]
    let offsets := [0, 0, 0, 0]
    let w3 := w2.emit
      (.drmModeAddFB2 fd bo1.width bo1.height bo1.pixel_format handles pitches offsets 0)
    let r2 := k.drmModeAddFB2 fd bo1.width bo1.height bo1.pixel_format handles pitches offsets 0
    if r2.1 ≠ 0 then
      (-1, bo1, w3.emit (.ALOGD ("Failed to drmModeAddFB: %s")))
    else
      (0, { bo1 with fb_id := r2.2 }, w3)

/-- The function `modeset_create_dumb` of `modeset-double-buffer.cpp`: the same
behind a test of `bo` against `NULL`. -/
def DoubleBuffer.modeset_create_dumb (k : Kernel) (fd : Int) (width height depth bpp : Nat)
    (bo : Option buffer_object) (w : World) : Int × Option buffer_object × World :=
  match bo with
  | none => (-1, none, w)
  | some b =>
    let r := DrmStudy.modeset_create_dumb k fd width height depth bpp b w
    (r.1, some r.2.1, r.2.2)

/-- The function `modeset_map`. -/
def modeset_map (k : Kernel) (bo : buffer_object) (w : World) : Int × buffer_object × World :=
  let arg : drm_mode_map_dumb := { handle := bo.handle, pad := 0, offset := 0 }
  let w1 := w.emit (.ioctl_map_dumb bo.fd arg)
  let r := k.ioctl_map_dumb bo.fd arg
  if r.1 ≠ 0 then
    (r.1, bo, w1.emit (.ALOGE ("Failed to map dumb buffer: %s")))
  else
    let arg1 := r.2
    let w2 := w1.emit
      (.drm_mmap 0 bo.size (PROT_READ ||| PROT_WRITE) MAP_SHARED bo.fd arg1.offset)
    match k.drm_mmap 0 bo.size (PROT_READ ||| PROT_WRITE) MAP_SHARED bo.fd arg1.offset with
    | none => (-EINVAL, bo, w2.emit (.ALOGE ("Failed to drm_mmap: %s")))
    | some map => (0, { bo with vaddr := map }, w2)

/-- The function `modeset_unmap`; `bo` may be `NULL`. -/
def modeset_unmap (bo : Option buffer_object) (w : World) : Option buffer_object × World :=
  match bo with
  | none => (none, w)
  | some b =>
    if b.vaddr = 0 then (some b, w)
    else (some { b with vaddr := 0 }, w.emit (.drm_munmap b.vaddr b.size))

/-- How a run of the fill loop can end. -/
inductive FillResult where
  | done (w : World) (i : Int)
  | fault
  | overflow
  | outOfFuel

/-- The loop `for (int i = 0; i < bo->size/4; ++i) ptr[i] = color;` from the
state in which the counter is `i`.  The comparison is made in `uint32_t`, the
`int` counter being converted; a store through a `NULL` base pointer faults;
an increment past `INT_MAX` is signed overflow. -/
def modeset_fillColor_loop (bo : buffer_object) (color : Nat) :
    Nat → Int → World → FillResult
  | 0, _, _ => .outOfFuel
  | fuel + 1, i, w =>
    if (i % 2 ^ 32).toNat < bo.size / 4 then
      if bo.vaddr = 0 then .fault
      else
        let w1 := w.store (bo.vaddr + 4 * i.toNat) color
        if INT_MAX < i + 1 then .overflow
        else modeset_fillColor_loop bo color fuel (i + 1) w1
    else .done w i

/-- The function `modeset_fillColor`: the loop started with `i = 0`, with the
world it leaves if it ends normally. -/
def modeset_fillColor (fuel : Nat) (bo : buffer_object) (color : Nat) (w : World) :
    Option World :=
  match modeset_fillColor_loop bo color fuel 0 w with
  | .done w1 _ => some w1
  | _ => none

/-- The function `modeset_destroy`.  The buffer object is returned as the
function leaves it. -/
def modeset_destroy (k : Kernel) (bo : buffer_object) (w : World) : buffer_object × World :=
  let w1 := if bo.fb_id ≠ 0 then w.emit (.drmModeRmFB bo.fd bo.fb_id) else w
  let arg : drm_mode_destroy_dumb := { handle := bo.handle }
  let w2 := w1.emit (.ioctl_destroy_dumb bo.fd arg)
  let ret := k.ioctl_destroy_dumb bo.fd arg
  if ret ≠ 0 then (bo, w2.emit (.ALOGE ("failed to destroy dumb buffer: %s\n")))
  else (bo, w2)

/-! ## Property resolution -/

/-- The loop of `get_property_id` over the entries `props->props[i]` that are
left, `id` being the local of that name.  A `NULL` answer of
`drmModeGetProperty` is dereferenced by `property->name`. -/
def get_property_id_loop (k : Kernel) (fd : Int) (name : String) :
    List Nat → Nat → World → Option (Nat × World)
  | [], id, w => some (id, w)
  | p :: rest, id, w =>
    let w1 := w.emit (.drmModeGetProperty fd p)
    match k.drmModeGetProperty fd p with
    | none => none
    | some property =>
      let id1 := if property.name = name then property.prop_id else id
      let w2 := w1.emit (.drmModeFreeProperty property)
      if id1 ≠ 0 then some (id1, w2)
      else get_property_id_loop k fd name rest id1 w2

/-- The function `get_property_id` of `modeset-atomic-crtc.cpp`; `props` is
the array `props->props` of `props->count_props` ids. -/
def get_property_id (k : Kernel) (fd : Int) (props : List Nat) (name : String) (w : World) :
    Option (Nat × World) :=
  get_property_id_loop k fd name props 0 w

/-- The id the specification describes: that of the first property, in
enumeration order, whose name is the given one, and 0 when there is none. -/
def firstNamed (properties : List drmModePropertyRes) (name : String) : Nat :=
  match properties.find? (fun q => decide (q.name = name)) with
  | some q => q.prop_id
  | none => 0

/-- The id the code computes: that of the first property, in enumeration
order, whose name is the given one and whose id is not 0, and 0 when there is
none. -/
def firstNamedNonzero (properties : List drmModePropertyRes) (name : String) : Nat :=
  match properties.find? (fun q => decide (q.name = name) && decide (q.prop_id ≠ 0)) with
  | some q => q.prop_id
  | none => 0

/-! ## The demo `modeset-atomic-crtc` -/

/-- How a stage of `main` can end: undefined behaviour, a `return` from
`main`, or control reaching the next stage. -/
inductive Step (α : Type) where
  | fault
  | ret (code : Int) (w : World)
  | next (a : α) (w : World)

/-- The locals of `main` that are live once the buffer has been filled. -/
structure Setup where
  fd : Int
  resources : drmModeRes
  planes : List Nat
  connector : drmModeConnector
  mode : drmModeModeInfo
  conn_id : Nat
  crtc_id : Nat
  plane_id : Nat
  buf : buffer_object
deriving DecidableEq

/-- The value of `struct buffer_object buf` after its initialiser. -/
def buffer_object.zero : buffer_object :=
  { fd := 0, width := 0, height := 0, pitch := 0, pixel_format := 0, handle := 0, size := 0,
    vaddr := 0, fb_id := 0 }

/-- The part of `main` from `open` to `modeset_unmap(&buf)`: lines 172 to 218
of `modeset-atomic-crtc.cpp`, the same as lines 147 to 193 of
`modeset-plane-test.cpp`.  `mode` is `connector->modes[0]`. -/
def main_setup (k : Kernel) (w : World) : Step Setup :=
  let buf := buffer_object.zero
  let w1 := w.emit (.sys_open ("/dev/dri/card0") (O_RDWR ||| O_CLOEXEC))
  let fd := k.sys_open ("/dev/dri/card0") (O_RDWR ||| O_CLOEXEC)
  if fd < 0 then .ret (-1) (w1.emit (.ALOGE ("Failed to open drm device, %s")))
  else
    let w2 := w1.emit (.drmModeGetResources fd)
    match k.drmModeGetResources fd with
    | none => .ret (-1) ((w2.emit (.sys_close fd)).emit (.ALOGE ("Failed to get resources")))
    | some resources =>
      match resources.crtcs.head?, resources.connectors.head? with
      | some crtc_id, some conn_id =>
        let w3 := w2.emit (.drmSetClientCap fd DRM_CLIENT_CAP_UNIVERSAL_PLANES 1)
        let w4 := w3.emit (.drmModeGetPlaneResources fd)
        match k.drmModeGetPlaneResources fd with
        | none => .fault
        | some planes =>
          match planes.head? with
          | none => .fault
          | some plane_id =>
            let w5 := w4.emit (.ALOGD ("Select plane id : %u"))
            let w6 := w5.emit (.drmModeGetConnector fd conn_id)
            match k.drmModeGetConnector fd conn_id with
            | none => .ret (-1) (w6.emit (.ALOGE ("Failed to get connector %d")))
            | some connector =>
              match connector.modes.head? with
              | none => .fault
              | some mode =>
                let width := mode.hdisplay
                let height := mode.vdisplay
                let w7 := w6.emit (.ALOGI ("Display info: width=%u, height=%u"))
                let r := modeset_create_dumb k fd width height 24 32 buf w7
                if r.1 ≠ 0 then .ret (-1) r.2.2
                else
                  let r2 := modeset_map k r.2.1 r.2.2
                  if r2.1 ≠ 0 then .ret (-1) r2.2.2
                  else
                    match modeset_fillColor (r2.2.1.size / 4 + 1) r2.2.1 0xff0000 r2.2.2 with
                    | none => .fault
                    | some w8 =>
                      let r3 := modeset_unmap (some r2.2.1) w8
                      .next
                        { fd := fd, resources := resources, planes := planes,
                          connector := connector, mode := mode, conn_id := conn_id,
                          crtc_id := crtc_id, plane_id := plane_id,
                          buf := r3.1.getD r2.2.1 }
                        r3.2
      | _, _ => .fault

/-- The locals of `main` that the property resolution assigns. -/
structure Resolved where
  property_crtc_id : Nat
  property_active : Nat
  property_mode_id : Nat
  blob_id : Nat
deriving DecidableEq

/-- Lines 222 to 237 of `main`: enabling the atomic capability, resolving the
three property ids and creating the mode blob.  `props->count_props` on a
`NULL` answer of `drmModeObjectGetProperties` is a fault.  libdrm's
`drmModeCreatePropertyBlob` writes the new id when it returns 0; `blob_id`
keeps its initial 0 otherwise. -/
def main_resolve (k : Kernel) (s : Setup) (w : World) : Option (Resolved × World) :=
  let w1 := w.emit (.drmSetClientCap s.fd DRM_CLIENT_CAP_ATOMIC 1)
  let w2 := w1.emit (.drmModeObjectGetProperties s.fd s.conn_id DRM_MODE_OBJECT_CONNECTOR)
  match k.drmModeObjectGetProperties s.fd s.conn_id DRM_MODE_OBJECT_CONNECTOR with
  | none => none
  | some props =>
    match get_property_id k s.fd props ("CRTC_ID") w2 with
    | none => none
    | some (property_crtc_id, w3) =>
      let w4 := w3.emit (.drmModeFreeObjectProperties props)
      let w5 := w4.emit (.drmModeObjectGetProperties s.fd s.crtc_id DRM_MODE_OBJECT_CRTC)
      match k.drmModeObjectGetProperties s.fd s.crtc_id DRM_MODE_OBJECT_CRTC with
      | none => none
      | some props2 =>
        match get_property_id k s.fd props2 ("ACTIVE") w5 with
        | none => none
        | some (property_active, w6) =>
          match get_property_id k s.fd props2 ("MODE_ID") w6 with
          | none => none
          | some (property_mode_id, w7) =>
            let w8 := w7.emit (.drmModeFreeObjectProperties props2)
            let w9 := w8.emit (.drmModeCreatePropertyBlob s.fd s.mode)
            let r := k.drmModeCreatePropertyBlob s.fd s.mode
            let blob_id := if r.1 = 0 then r.2 else 0
            some
              ({ property_crtc_id := property_crtc_id, property_active := property_active,
                 property_mode_id := property_mode_id, blob_id := blob_id }, w9)

/-- Modelled from the spec: the effect of libdrm's `drmModeAtomicAddProperty`
on the request, which is not part of the repository (section 4.4: it appends
one triple, without deduplication, keeping the insertion order). -/
def drmModeAtomicAddProperty (req : List (Nat × Nat × Nat)) (object_id property_id value : Nat) :
    List (Nat × Nat × Nat) :=
  req ++ [(object_id, property_id, value)]

/-- Lines 239 to 248 of `main`: the atomic mode switch.  The request starts
empty (`drmModeAtomicAlloc`); the value `drmModeAtomicCommit` returns is not
read. -/
def main_atomic_commit (k : Kernel) (fd : Int) (conn_id crtc_id : Nat) (p : Resolved)
    (w : World) : World :=
  let w1 := w.emit .drmModeAtomicAlloc
  let req0 : List (Nat × Nat × Nat) := []
  let w2 := w1.emit (.drmModeAtomicAddProperty crtc_id p.property_active 1)
  let req1 := drmModeAtomicAddProperty req0 crtc_id p.property_active 1
  let w3 := w2.emit (.drmModeAtomicAddProperty crtc_id p.property_mode_id p.blob_id)
  let req2 := drmModeAtomicAddProperty req1 crtc_id p.property_mode_id p.blob_id
  let w4 := w3.emit (.drmModeAtomicAddProperty conn_id p.property_crtc_id crtc_id)
  let req3 := drmModeAtomicAddProperty req2 conn_id p.property_crtc_id crtc_id
  let w5 := w4.emit (.drmModeAtomicCommit fd req3 DRM_MODE_ATOMIC_ALLOW_MODESET)
  let _ := k.drmModeAtomicCommit fd req3 DRM_MODE_ATOMIC_ALLOW_MODESET
  let w6 := w5.emit (.drmModeAtomicFree req3)
  (w6.emit (.printf ("drmModeAtomicCommit SetCrtc\n"))).emit .getchar

/-- Lines 222 to 248 of `main`: the atomic mode-switch flow, from the property
resolution to the release of the request. -/
def main_modeset (k : Kernel) (s : Setup) (w : World) : Option (Resolved × World) :=
  match main_resolve k s w with
  | none => none
  | some (p, w1) => some (p, main_atomic_commit k s.fd s.conn_id s.crtc_id p w1)

/-- Lines 250 to 256 of `main`: the plane placement of the atomic demo.  The
value `drmModeSetPlane` returns is not read. -/
def main_set_plane (k : Kernel) (s : Setup) (w : World) : World :=
  let w1 := w.emit
    (.drmModeSetPlane s.fd s.plane_id s.crtc_id s.buf.fb_id 0 50 50 320 320 0 0
      (320 <<< 16) (320 <<< 16))
  let _ := k.drmModeSetPlane s.fd s.plane_id s.crtc_id s.buf.fb_id 0 50 50 320 320 0 0
      (320 <<< 16) (320 <<< 16)
  (w1.emit (.printf ("drmModeSetPlane\n"))).emit .getchar

/-- Lines 259 to 265 of `main` (213 to 219 of `modeset-plane-test.cpp`): the
release of the resources. -/
def main_teardown (k : Kernel) (s : Setup) (w : World) : World :=
  let r := modeset_destroy k s.buf w
  let w1 := r.2.emit (.drmModeFreeConnector s.connector)
  let w2 := w1.emit (.drmModeFreePlaneResources s.planes)
  let w3 := w2.emit (.drmModeFreeResources s.resources)
  w3.emit (.sys_close s.fd)

/-- The function `main` of `modeset-atomic-crtc.cpp`: the return value and the
world, or `none` on undefined behaviour. -/
def main (k : Kernel) (w : World) : Option (Int × World) :=
  match main_setup k w with
  | .fault => none
  | .ret code w1 => some (code, w1)
  | .next s w1 =>
    match main_modeset k s w1 with
    | none => none
    | some (_, w2) => some (0, main_teardown k s (main_set_plane k s w2))

/-! ## The demo `modeset-plane-test` -/

/-- Lines 204 to 210 of `main` in `modeset-plane-test.cpp`: the plane
placement, whose source size is `buf.width<<16` and `buf.height<<16` in
`uint32_t` arithmetic. -/
def PlaneTest.main_set_plane (k : Kernel) (s : Setup) (w : World) : World :=
  let src_w := (s.buf.width <<< 16) % 2 ^ 32
  let src_h := (s.buf.height <<< 16) % 2 ^ 32
  let w1 := w.emit
    (.drmModeSetPlane s.fd s.plane_id s.crtc_id s.buf.fb_id 0 480 270 960 540
      (0 <<< 16) (0 <<< 16) src_w src_h)
  let ret := k.drmModeSetPlane s.fd s.plane_id s.crtc_id s.buf.fb_id 0 480 270 960 540
      (0 <<< 16) (0 <<< 16) src_w src_h
  let w2 := if ret ≠ 0 then w1.emit (.ALOGE ("failed to drmModeSetPlane: %s\n")) else w1
  w2.emit .getchar

/-- The function `main` of `modeset-plane-test.cpp`. -/
def PlaneTest.main (k : Kernel) (w : World) : Option (Int × World) :=
  match main_setup k w with
  | .fault => none
  | .ret code w1 => some (code, w1)
  | .next s w1 => some (0, main_teardown k s (PlaneTest.main_set_plane k s w1))

/-! ## Classes of calls, and the contract of the plane placement -/

/-- Whether a call is a plane placement. -/
def Call.isSetPlane : Call → Bool
  | .drmModeSetPlane .. => true
  | _ => false

/-- Whether a call is a kernel-buffer free. -/
def Call.isDestroyDumb : Call → Bool
  | .ioctl_destroy_dumb .. => true
  | _ => false

/-- Whether a call is a framebuffer removal. -/
def Call.isRmFB : Call → Bool
  | .drmModeRmFB .. => true
  | _ => false

/-- Whether a call adds a triple with the property id 0 to a request. -/
def Call.addsZeroProperty : Call → Bool
  | .drmModeAtomicAddProperty _ property_id _ => property_id == 0
  | _ => false

/-- Whether a call acts on an atomic request: its allocation, an addition to
it, its commit or its release. -/
def Call.isAtomicRequestCall : Call → Bool
  | .drmModeAtomicAlloc => true
  | .drmModeAtomicAddProperty .. => true
  | .drmModeAtomicCommit .. => true
  | .drmModeAtomicFree .. => true
  | _ => false

/-- Whether a call is an atomic commit. -/
def Call.isAtomicCommit : Call → Bool
  | .drmModeAtomicCommit .. => true
  | _ => false

/-- The specification's condition on a source rectangle, in 16.16 fixed-point
units: a corner lies beyond the buffer's `(width, height)`. -/
def srcRectExceeds (width height src_x src_y src_w src_h : Nat) : Prop :=
  width * 65536 < src_x + src_w ∨ height * 65536 < src_y + src_h

instance (width height src_x src_y src_w src_h : Nat) :
    Decidable (srcRectExceeds width height src_x src_y src_w src_h) := by
  unfold srcRectExceeds; infer_instance

/-! ## Concrete inputs -/

/-- A mapped buffer of 8 bytes. -/
def buf8 : buffer_object :=
  { fd := 3, width := 2, height := 1, pitch := 8, pixel_format := DRM_FORMAT_XRGB8888,
    handle := 1, size := 8, vaddr := 4096, fb_id := 42 }

/-- A device with one CRTC (id 31), one connector (id 33), one plane (id 35)
and one mode of 2 by 2 pixels, on which every call succeeds.  A buffer it
creates has a pitch of four bytes per pixel and the size pitch times height.
The connector and the CRTC have the properties the atomic demo asks for. -/
def smallKernel : Kernel :=
  { sys_open := fun _ _ => 3,
    drmModeGetResources := fun _ => some { crtcs := [31], connectors := [33] },
    drmModeGetPlaneResources := fun _ => some [35],
    drmModeGetConnector := fun _ _ => some { modes := [{ hdisplay := 2, vdisplay := 2 }] },
    ioctl_create_dumb := fun _ arg =>
      (0, { arg with handle := 1, pitch := 4 * arg.width, size := 4 * arg.width * arg.height }),
    drmModeAddFB2 := fun _ _ _ _ _ _ _ _ => (0, 42),
    ioctl_map_dumb := fun _ arg => (0, { arg with offset := 0x10000 }),
    drm_mmap := fun _ _ _ _ _ _ => some 4096,
    drmModeRmFB := fun _ _ => 0,
    ioctl_destroy_dumb := fun _ _ => 0,
    drmModeObjectGetProperties := fun _ _ object_type =>
      if object_type = DRM_MODE_OBJECT_CONNECTOR then some [20] else some [22, 23],
    drmModeGetProperty := fun _ p =>
      if p = 20 then some { prop_id := 20, name := "CRTC_ID" }
      else if p = 22 then some { prop_id := 22, name := "ACTIVE" }
      else some { prop_id := p, name := "MODE_ID" },
    drmModeCreatePropertyBlob := fun _ _ => (0, 77),
    drmModeAtomicCommit := fun _ _ _ => 0,
    drmModeSetPlane := fun _ _ _ _ _ _ _ _ _ _ _ _ _ => 0 }

/-- The same device, except that every property it is asked for is named
`ACTIVE` and carries the id it was asked by, the id 0 included. -/
def zeroIdKernel : Kernel :=
  { smallKernel with drmModeGetProperty := fun _ p => some { prop_id := p, name := "ACTIVE" } }

/-- The same device, except that its objects expose no property at all. -/
def bareKernel : Kernel :=
  { smallKernel with drmModeObjectGetProperties := fun _ _ _ => some [] }

/-- The locals of `main` on the small device once the buffer has been filled
and unmapped. -/
def smallSetup : Setup :=
  { fd := 3, resources := { crtcs := [31], connectors := [33] }, planes := [35],
    connector := { modes := [{ hdisplay := 2, vdisplay := 2 }] },
    mode := { hdisplay := 2, vdisplay := 2 }, conn_id := 33, crtc_id := 31, plane_id := 35,
    buf := { fd := 3, width := 2, height := 2, pitch := 8, pixel_format := DRM_FORMAT_XRGB8888,
             handle := 1, size := 16, vaddr := 0, fb_id := 42 } }

/-- The setup a stage of `main` ended with, if control went on. -/
def Step.setup? : Step Setup → Option Setup
  | .next s _ => some s
  | _ => none

/-! ## Theorems -/

/-- Invariant of the fill loop: started with the counter at `i`, with `n`
slots left and more than `n` units of fuel, the loop ends normally with the
counter at `size / 4`, having stored the color in the slots `i` to
`size / 4 - 1` and nowhere else. -/
theorem fill_loop_spec (bo : buffer_object) (color : Nat) (hv : bo.vaddr ≠ 0)
    (hs : bo.size < 2 ^ 32) :
    ∀ (n fuel i : Nat) (w : World), i + n = bo.size / 4 → n < fuel →
      ∃ w1, modeset_fillColor_loop bo color fuel (i : Int) w
            = .done w1 ((bo.size / 4 : Nat) : Int)
        ∧ w1.trace = w.trace
        ∧ w1.stores = w.stores ++ (List.range' i n).map (fun j => (bo.vaddr + 4 * j, color))
        ∧ (∀ j, i ≤ j → j < bo.size / 4 → w1.mem (bo.vaddr + 4 * j) = color)
        ∧ (∀ a, (∀ j, i ≤ j → j < bo.size / 4 → a ≠ bo.vaddr + 4 * j) →
            w1.mem a = w.mem a) := by
  intro n
  induction n with
  | zero =>
    intro fuel i w hin hf
    obtain ⟨f, rfl⟩ : ∃ f, fuel = f + 1 := ⟨fuel - 1, by omega⟩
    have hc : ¬ (((i : Int) % 2 ^ 32).toNat < bo.size / 4) := by omega
    refine ⟨w, ?_, rfl, by simp, ?_, fun _ _ => rfl⟩
    · simp only [modeset_fillColor_loop, if_neg hc]
      have : i = bo.size / 4 := by omega
      rw [this]
    · intro j h1 h2; omega
  | succ n ih =>
    intro fuel i w hin hf
    obtain ⟨f, rfl⟩ : ∃ f, fuel = f + 1 := ⟨fuel - 1, by omega⟩
    have hc : (((i : Int) % 2 ^ 32).toNat < bo.size / 4) := by omega
    have ho : ¬ (INT_MAX < (i : Int) + 1) := by unfold INT_MAX; omega
    obtain ⟨w1, h1, h2, h3, h4, h5⟩ :=
      ih f (i + 1) (w.store (bo.vaddr + 4 * i) color) (by omega) (by omega)
    refine ⟨w1, ?_, ?_, ?_, ?_, ?_⟩
    · simp only [modeset_fillColor_loop, if_pos hc, if_neg hv, if_neg ho, Int.toNat_ofNat]
      exact_mod_cast h1
    · rw [h2]; rfl
    · rw [h3]; simp [World.store, List.range'_succ]
    · intro j hj1 hj2
      by_cases hji : j = i
      · subst hji
        rw [h5 _ (by intro k hk1 hk2; omega)]
        simp [World.store]
      · exact h4 j (by omega) hj2
    · intro a ha
      rw [h5 a (fun j hj1 hj2 => ha j (by omega) hj2)]
      have := ha i (le_refl _) (by omega)
      simp [World.store, this]

/-- C1: for every mapped buffer (`vaddr` not `NULL`) whose size is a 32-bit
value and every color, `modeset_fillColor` ends normally once the fuel exceeds
`size / 4`; the `int` counter ends at `size / 4`, which is at most `INT_MAX`;
exactly `size / 4` stores are made, the `j`-th to slot `j` with the color;
afterwards every slot `j < size / 4` reads back the color and every address
that is not one of these slots keeps its content; no call leaves the
program. -/
theorem modeset_fillColor_fills_size_div_4 (bo : buffer_object) (color fuel : Nat) (w : World)
    (hmapped : bo.vaddr ≠ 0) (hsize : bo.size < 2 ^ 32) (hfuel : bo.size / 4 < fuel) :
    ∃ w1, modeset_fillColor fuel bo color w = some w1
      ∧ modeset_fillColor_loop bo color fuel 0 w = .done w1 ((bo.size / 4 : Nat) : Int)
      ∧ ((bo.size / 4 : Nat) : Int) ≤ INT_MAX
      ∧ w1.stores = w.stores ++ (List.range (bo.size / 4)).map (fun j => (bo.vaddr + 4 * j, color))
      ∧ w1.stores.length = w.stores.length + bo.size / 4
      ∧ (∀ j, j < bo.size / 4 → w1.mem (bo.vaddr + 4 * j) = color)
      ∧ (∀ a, (∀ j, j < bo.size / 4 → a ≠ bo.vaddr + 4 * j) → w1.mem a = w.mem a)
      ∧ w1.trace = w.trace := by
  obtain ⟨w1, h1, h2, h3, h4, h5⟩ :=
    fill_loop_spec bo color hmapped hsize (bo.size / 4) fuel 0 w (by omega) hfuel
  have h1' : modeset_fillColor_loop bo color fuel 0 w
      = .done w1 ((bo.size / 4 : Nat) : Int) := by exact_mod_cast h1
  have h3' : w1.stores
      = w.stores ++ (List.range (bo.size / 4)).map (fun j => (bo.vaddr + 4 * j, color)) := by
    rw [h3, List.range_eq_range']
  refine ⟨w1, ?_, h1', ?_, h3', ?_, fun j hj => h4 j (Nat.zero_le _) hj,
    fun a ha => h5 a (fun j _ hj => ha j hj), h2⟩
  · simp [modeset_fillColor, h1']
  · unfold INT_MAX; omega
  · rw [h3']; simp

/-- Witness of C1 on a mapped buffer of 8 bytes: two stores. -/
theorem modeset_fillColor_fills_size_div_4_witness :
    ∃ w1, modeset_fillColor 3 buf8 0xff0000 World.init = some w1
      ∧ modeset_fillColor_loop buf8 0xff0000 3 0 World.init
          = .done w1 ((buf8.size / 4 : Nat) : Int)
      ∧ ((buf8.size / 4 : Nat) : Int) ≤ INT_MAX
      ∧ w1.stores = World.init.stores
          ++ (List.range (buf8.size / 4)).map (fun j => (buf8.vaddr + 4 * j, 0xff0000))
      ∧ w1.stores.length = World.init.stores.length + buf8.size / 4
      ∧ (∀ j, j < buf8.size / 4 → w1.mem (buf8.vaddr + 4 * j) = 0xff0000)
      ∧ (∀ a, (∀ j, j < buf8.size / 4 → a ≠ buf8.vaddr + 4 * j) → w1.mem a = World.init.mem a)
      ∧ w1.trace = World.init.trace :=
  modeset_fillColor_fills_size_div_4 buf8 0xff0000 3 World.init (by decide) (by decide)
    (by decide)

/-- C2: `modeset_unmap` is idempotent.  A second call in a row leaves the
buffer object and the world exactly as the first call left them; the address
field is null after the first call and after the second; over both calls the
only call issued is one `drm_munmap` of the old address and the buffer size,
and that only when the first call found a non-null address; on a `NULL`
buffer or a buffer whose address is null the call changes nothing. -/
theorem modeset_unmap_idempotent (bo : Option buffer_object) (w : World) :
    modeset_unmap (modeset_unmap bo w).1 (modeset_unmap bo w).2 = modeset_unmap bo w
      ∧ (modeset_unmap bo w).1.map (fun b => b.vaddr) = bo.map (fun _ => 0)
      ∧ (modeset_unmap (modeset_unmap bo w).1 (modeset_unmap bo w).2).1.map (fun b => b.vaddr)
          = bo.map (fun _ => 0)
      ∧ (modeset_unmap bo w).2.trace = w.trace ++
          (match bo with
           | some b => if b.vaddr ≠ 0 then [Call.drm_munmap b.vaddr b.size] else []
           | none => [])
      ∧ (modeset_unmap (modeset_unmap bo w).1 (modeset_unmap bo w).2).2.trace = w.trace ++
          (match bo with
           | some b => if b.vaddr ≠ 0 then [Call.drm_munmap b.vaddr b.size] else []
           | none => [])
      ∧ ((∀ b, bo = some b → b.vaddr = 0) → modeset_unmap bo w = (bo, w)) := by
  cases bo with
  | none => simp [modeset_unmap]
  | some b =>
    by_cases hv : b.vaddr = 0
    · simp [modeset_unmap, hv]
    · simp [modeset_unmap, hv, World.emit]

/-- Witness of C2: the second of two calls on a mapped buffer changes nothing,
and a call on an unmapped buffer changes nothing. -/
theorem modeset_unmap_idempotent_witness :
    modeset_unmap (modeset_unmap (some buf8) World.init).1
        (modeset_unmap (some buf8) World.init).2 = modeset_unmap (some buf8) World.init
      ∧ modeset_unmap (some buffer_object.zero) World.init
          = (some buffer_object.zero, World.init) :=
  ⟨(modeset_unmap_idempotent (some buf8) World.init).1,
   (modeset_unmap_idempotent (some buffer_object.zero) World.init).2.2.2.2.2
     (by intro b hb; cases hb; rfl)⟩

/-- C3: for every buffer object and every answer of the kernel,
`modeset_destroy` issues, in this order, the framebuffer removal
`drmModeRmFB(fd, fb_id)` exactly when `fb_id` is not zero, then exactly one
`DRM_IOCTL_MODE_DESTROY_DUMB` for the buffer's handle, then nothing but log
lines; neither answer changes which calls are made. -/
theorem modeset_destroy_calls (k : Kernel) (bo : buffer_object) (w : World) :
    ∃ log, (modeset_destroy k bo w).2.trace
        = w.trace
          ++ (if bo.fb_id ≠ 0 then [Call.drmModeRmFB bo.fd bo.fb_id] else [])
          ++ [Call.ioctl_destroy_dumb bo.fd { handle := bo.handle }]
          ++ log
      ∧ (∀ c ∈ log, ∃ fmt, c = Call.ALOGE fmt)
      ∧ ((modeset_destroy k bo w).2.trace.filter Call.isDestroyDumb).length
          = (w.trace.filter Call.isDestroyDumb).length + 1
      ∧ ((modeset_destroy k bo w).2.trace.filter Call.isRmFB).length
          = (w.trace.filter Call.isRmFB).length + (if bo.fb_id ≠ 0 then 1 else 0) := by
  by_cases hr : k.ioctl_destroy_dumb bo.fd { handle := bo.handle } = 0
  · refine ⟨[], ?_, by simp, ?_, ?_⟩ <;>
      by_cases hf : bo.fb_id = 0 <;>
      simp [modeset_destroy, hr, hf, World.emit, Call.isDestroyDumb, Call.isRmFB]
  · refine ⟨[Call.ALOGE ("failed to destroy dumb buffer: %s\n")], ?_, by simp, ?_, ?_⟩ <;>
      by_cases hf : bo.fb_id = 0 <;>
      simp [modeset_destroy, hr, hf, World.emit, Call.isDestroyDumb, Call.isRmFB]


/-- The loop of `get_property_id`, when every property of the list can be
fetched: it ends normally, and from `id = 0` it yields the id of the first
property that has the name and a non-zero id, or 0. -/
theorem get_property_id_loop_spec (k : Kernel) (fd : Int) (name : String) :
    ∀ (props : List Nat) (properties : List drmModePropertyRes) (w : World),
      props.map (k.drmModeGetProperty fd) = properties.map some →
      ∃ w1, get_property_id_loop k fd name props 0 w
        = some (firstNamedNonzero properties name, w1) := by
  intro props
  induction props with
  | nil =>
    intro properties w h
    cases properties with
    | nil => exact ⟨w, rfl⟩
    | cons q qs => simp at h
  | cons p rest ih =>
    intro properties w h
    cases properties with
    | nil => simp at h
    | cons q qs =>
      simp only [List.map_cons, List.cons.injEq] at h
      obtain ⟨hq, hrest⟩ := h
      by_cases hn : q.name = name
      · by_cases hz : q.prop_id = 0
        · obtain ⟨w1, hw1⟩ := ih qs
            ((w.emit (.drmModeGetProperty fd p)).emit (.drmModeFreeProperty q)) hrest
          refine ⟨w1, ?_⟩
          simp only [get_property_id_loop, hq, hn, hz, if_true, ne_eq, not_true_eq_false,
            if_false]
          rw [hw1]
          simp [firstNamedNonzero, List.find?, hn, hz]
        · refine ⟨(w.emit (.drmModeGetProperty fd p)).emit (.drmModeFreeProperty q), ?_⟩
          simp [get_property_id_loop, hq, hn, hz, firstNamedNonzero, List.find?]
      · obtain ⟨w1, hw1⟩ := ih qs
          ((w.emit (.drmModeGetProperty fd p)).emit (.drmModeFreeProperty q)) hrest
        refine ⟨w1, ?_⟩
        simp only [get_property_id_loop, hq, hn, if_false, ne_eq, not_true_eq_false]
        rw [hw1]
        simp [firstNamedNonzero, List.find?, hn]

/-- When every id is non-zero, the id the code computes is the id of the first
property with the name. -/
theorem firstNamedNonzero_eq_firstNamed (properties : List drmModePropertyRes) (name : String)
    (h : ∀ q ∈ properties, q.prop_id ≠ 0) :
    firstNamedNonzero properties name = firstNamed properties name := by
  induction properties with
  | nil => rfl
  | cons q qs ih =>
    have hq : q.prop_id ≠ 0 := h q (List.mem_cons_self _ _)
    have ih' := ih (fun r hr => h r (List.mem_cons_of_mem _ hr))
    by_cases hn : q.name = name
    · simp [firstNamedNonzero, firstNamed, List.find?, hn, hq]
    · simp only [firstNamedNonzero, firstNamed, List.find?, hn, decide_False, Bool.false_and]
        at ih' ⊢
      exact ih'

/-- No property with the name: the id the code computes is 0. -/
theorem firstNamedNonzero_absent (properties : List drmModePropertyRes) (name : String)
    (h : ∀ q ∈ properties, q.name ≠ name) : firstNamedNonzero properties name = 0 := by
  induction properties with
  | nil => rfl
  | cons q qs ih =>
    have hq : q.name ≠ name := h q (List.mem_cons_self _ _)
    have ih' := ih (fun r hr => h r (List.mem_cons_of_mem _ hr))
    simp only [firstNamedNonzero, List.find?, hq, decide_False, Bool.false_and] at ih' ⊢
    exact ih'

/-- C4, the claim as stated fails: on a list of two properties named `ACTIVE`
whose first has the id 0, `get_property_id` returns the id 7 of the second,
not the id 0 of the first property with that name. -/
theorem get_property_id_skips_zero_id :
    (get_property_id zeroIdKernel 3 [0, 7] ("ACTIVE") World.init).map Prod.fst = some 7
      ∧ [0, 7].map (zeroIdKernel.drmModeGetProperty 3)
          = [some { prop_id := 0, name := "ACTIVE" }, some { prop_id := 7, name := "ACTIVE" }]
      ∧ firstNamed [{ prop_id := 0, name := "ACTIVE" }, { prop_id := 7, name := "ACTIVE" }]
          ("ACTIVE") = 0
      ∧ (get_property_id zeroIdKernel 3 [0, 7] ("ACTIVE") World.init).map Prod.fst
          ≠ some (firstNamed
              [{ prop_id := 0, name := "ACTIVE" }, { prop_id := 7, name := "ACTIVE" }]
              ("ACTIVE")) := by
  decide

/-- C4, amended: for every list of property ids whose properties can all be
fetched, and every name, `get_property_id` ends normally and returns the id of
the first property, in enumeration order, whose name equals the given name and
whose id is not 0, and 0 when there is no such property; so it returns 0 when
no property has the name, and, when no property of the list has the id 0, the
id of the first property with the name.  The id does not depend on the world,
and a second call in the world the first one left returns the same id. -/
theorem get_property_id_first_nonzero_match (k : Kernel) (fd : Int) (props : List Nat)
    (properties : List drmModePropertyRes) (name : String) (w : World)
    (hfetch : props.map (k.drmModeGetProperty fd) = properties.map some) :
    ∃ w1 w2, get_property_id k fd props name w = some (firstNamedNonzero properties name, w1)
      ∧ get_property_id k fd props name w1 = some (firstNamedNonzero properties name, w2)
      ∧ ((∀ q ∈ properties, q.name ≠ name) → firstNamedNonzero properties name = 0)
      ∧ ((∀ q ∈ properties, q.prop_id ≠ 0) →
          firstNamedNonzero properties name = firstNamed properties name) := by
  obtain ⟨w1, h1⟩ := get_property_id_loop_spec k fd name props properties w hfetch
  obtain ⟨w2, h2⟩ := get_property_id_loop_spec k fd name props properties w1 hfetch
  exact ⟨w1, w2, h1, h2, firstNamedNonzero_absent properties name,
    firstNamedNonzero_eq_firstNamed properties name⟩

/-- Witness of C4 amended: the CRTC of the small device, asked for `MODE_ID`. -/
theorem get_property_id_first_nonzero_match_witness :
    ∃ w1 w2, get_property_id smallKernel 3 [22, 23] ("MODE_ID") World.init
        = some (firstNamedNonzero
            [{ prop_id := 22, name := "ACTIVE" }, { prop_id := 23, name := "MODE_ID" }]
            ("MODE_ID"), w1)
      ∧ get_property_id smallKernel 3 [22, 23] ("MODE_ID") w1
        = some (firstNamedNonzero
            [{ prop_id := 22, name := "ACTIVE" }, { prop_id := 23, name := "MODE_ID" }]
            ("MODE_ID"), w2)
      ∧ ((∀ q ∈ [({ prop_id := 22, name := "ACTIVE" } : drmModePropertyRes),
            { prop_id := 23, name := "MODE_ID" }], q.name ≠ "MODE_ID") →
          firstNamedNonzero
            [{ prop_id := 22, name := "ACTIVE" }, { prop_id := 23, name := "MODE_ID" }]
            ("MODE_ID") = 0)
      ∧ ((∀ q ∈ [({ prop_id := 22, name := "ACTIVE" } : drmModePropertyRes),
            { prop_id := 23, name := "MODE_ID" }], q.prop_id ≠ 0) →
          firstNamedNonzero
            [{ prop_id := 22, name := "ACTIVE" }, { prop_id := 23, name := "MODE_ID" }]
            ("MODE_ID")
          = firstNamed
            [{ prop_id := 22, name := "ACTIVE" }, { prop_id := 23, name := "MODE_ID" }]
            ("MODE_ID")) :=
  get_property_id_first_nonzero_match smallKernel 3 [22, 23]
    [{ prop_id := 22, name := "ACTIVE" }, { prop_id := 23, name := "MODE_ID" }]
    ("MODE_ID") World.init (by decide)


/-- C5: `modeset_map` distinguishes its two failures and succeeds otherwise,
for every buffer object and every answer of the kernel.  When the offset query
`DRM_IOCTL_MODE_MAP_DUMB` answers a non-zero value, that value is returned, the
buffer object is unchanged and the only calls are the query and a log line (no
`drm_mmap`).  When the query answers 0 and `drm_mmap` fails, `-EINVAL` is
returned and the buffer object is unchanged.  When both succeed, 0 is
returned, only `vaddr` changes, to the address `drm_mmap` answered, and the
mapping that was asked for is `bo.size` bytes, `PROT_READ | PROT_WRITE`,
`MAP_SHARED`, on `bo.fd`, at the offset the query answered. -/
theorem modeset_map_outcomes (k : Kernel) (bo : buffer_object) (w : World) :
    (∀ ret arg1, k.ioctl_map_dumb bo.fd { handle := bo.handle, pad := 0, offset := 0 }
          = (ret, arg1) → ret ≠ 0 →
        modeset_map k bo w = (ret, bo, { w with trace := w.trace ++
          [Call.ioctl_map_dumb bo.fd { handle := bo.handle, pad := 0, offset := 0 },
           Call.ALOGE ("Failed to map dumb buffer: %s")] }))
    ∧ (∀ arg1, k.ioctl_map_dumb bo.fd { handle := bo.handle, pad := 0, offset := 0 }
          = (0, arg1) →
        k.drm_mmap 0 bo.size (PROT_READ ||| PROT_WRITE) MAP_SHARED bo.fd arg1.offset = none →
        modeset_map k bo w = (-EINVAL, bo, { w with trace := w.trace ++
          [Call.ioctl_map_dumb bo.fd { handle := bo.handle, pad := 0, offset := 0 },
           Call.drm_mmap 0 bo.size (PROT_READ ||| PROT_WRITE) MAP_SHARED bo.fd arg1.offset,
           Call.ALOGE ("Failed to drm_mmap: %s")] }))
    ∧ (∀ arg1 map, k.ioctl_map_dumb bo.fd { handle := bo.handle, pad := 0, offset := 0 }
          = (0, arg1) →
        k.drm_mmap 0 bo.size (PROT_READ ||| PROT_WRITE) MAP_SHARED bo.fd arg1.offset
          = some map →
        modeset_map k bo w = (0, { bo with vaddr := map }, { w with trace := w.trace ++
          [Call.ioctl_map_dumb bo.fd { handle := bo.handle, pad := 0, offset := 0 },
           Call.drm_mmap 0 bo.size (PROT_READ ||| PROT_WRITE) MAP_SHARED bo.fd
             arg1.offset] })) := by
  refine ⟨?_, ?_, ?_⟩
  · intro ret arg1 h hret
    simp [modeset_map, h, hret, World.emit]
  · intro arg1 h hm
    simp [modeset_map, h, hm, World.emit]
  · intro arg1 map h hm
    simp [modeset_map, h, hm, World.emit]

/-- Witness of C5: on the small device the 8-byte buffer is mapped at 4096,
through a window of 8 bytes at the offset 0x10000. -/
theorem modeset_map_outcomes_witness :
    modeset_map smallKernel { buf8 with vaddr := 0 } World.init
      = (0, { { buf8 with vaddr := 0 } with vaddr := 4096 },
         { World.init with trace := World.init.trace ++
            [Call.ioctl_map_dumb 3 { handle := 1, pad := 0, offset := 0 },
             Call.drm_mmap 0 8 (PROT_READ ||| PROT_WRITE) MAP_SHARED 3 0x10000] }) :=
  (modeset_map_outcomes smallKernel { buf8 with vaddr := 0 } World.init).2.2
    { handle := 1, pad := 0, offset := 0x10000 } 4096 rfl rfl

/-- C6, the claim as stated fails: for a buffer of 65536 by 16384 pixels at
32 bits per pixel the kernel answers the size 4294967296; `modeset_create_dumb`
returns success and the buffer object's size is 0, not the size the kernel
returned. -/
theorem modeset_create_dumb_size_narrowed :
    (smallKernel.ioctl_create_dumb 3
        { height := 16384, width := 65536, bpp := 32, flags := 0, handle := 0, pitch := 0,
          size := 0 }).2.size = 4294967296
      ∧ (modeset_create_dumb smallKernel 3 65536 16384 24 32 buffer_object.zero World.init).1 = 0
      ∧ (modeset_create_dumb smallKernel 3 65536 16384 24 32 buffer_object.zero
          World.init).2.1.size = 0
      ∧ (modeset_create_dumb smallKernel 3 65536 16384 24 32 buffer_object.zero
          World.init).2.1.size
        ≠ (smallKernel.ioctl_create_dumb 3
            { height := 16384, width := 65536, bpp := 32, flags := 0, handle := 0, pitch := 0,
              size := 0 }).2.size := by
  decide

/-- C6, amended: for every width, height and bits-per-pixel and every answer
of the kernel.  When the buffer-creation call answers a non-zero value,
`modeset_create_dumb` returns -1, leaves the buffer object unchanged and makes
no framebuffer registration call (its only calls are the creation call and a
log line).  Whenever it returns 0, the creation call answered 0, the buffer
object's handle and pitch are the values the kernel returned, its size is the
64-bit size the kernel returned reduced modulo `2 ^ 32` (the returned size
itself when that fits in 32 bits), and its pixel format is
`DRM_FORMAT_XRGB8888`.  The function of `modeset-double-buffer.cpp` does the
same on a non-null buffer object, and on `NULL` returns -1 without any
call. -/
theorem modeset_create_dumb_alloc (k : Kernel) (fd : Int) (width height depth bpp : Nat)
    (bo : buffer_object) (w : World) :
    (∀ ret arg1, k.ioctl_create_dumb fd
          { height := height, width := width, bpp := bpp, flags := 0, handle := 0, pitch := 0,
            size := 0 } = (ret, arg1) →
      (ret ≠ 0 →
        modeset_create_dumb k fd width height depth bpp bo w = (-1, bo, { w with trace :=
          w.trace ++
          [Call.ioctl_create_dumb fd
             { height := height, width := width, bpp := bpp, flags := 0, handle := 0,
               pitch := 0, size := 0 },
           Call.ALOGD ("Failed to create dumb buffer: %s")] }))
      ∧ ((modeset_create_dumb k fd width height depth bpp bo w).1 = 0 →
          ret = 0
          ∧ (modeset_create_dumb k fd width height depth bpp bo w).2.1.handle = arg1.handle
          ∧ (modeset_create_dumb k fd width height depth bpp bo w).2.1.pitch = arg1.pitch
          ∧ (modeset_create_dumb k fd width height depth bpp bo w).2.1.size
              = arg1.size % 2 ^ 32
          ∧ (arg1.size < 2 ^ 32 →
              (modeset_create_dumb k fd width height depth bpp bo w).2.1.size = arg1.size)
          ∧ (modeset_create_dumb k fd width height depth bpp bo w).2.1.pixel_format
              = DRM_FORMAT_XRGB8888))
    ∧ DoubleBuffer.modeset_create_dumb k fd width height depth bpp (some bo) w
        = ((modeset_create_dumb k fd width height depth bpp bo w).1,
           some (modeset_create_dumb k fd width height depth bpp bo w).2.1,
           (modeset_create_dumb k fd width height depth bpp bo w).2.2)
    ∧ DoubleBuffer.modeset_create_dumb k fd width height depth bpp none w = (-1, none, w) := by
  refine ⟨?_, rfl, rfl⟩
  intro ret arg1 h
  refine ⟨?_, ?_⟩
  · intro hret
    simp [modeset_create_dumb, h, hret, World.emit]
  · by_cases hret : ret = 0
    · subst hret
      by_cases h2 : (k.drmModeAddFB2 fd arg1.width arg1.height DRM_FORMAT_XRGB8888
          [arg1.handle, 0, 0, 0] [arg1.pitch, 0, 0, 0] [0, 0, 0, 0] 0).1 = 0
      · intro _
        simp only [modeset_create_dumb, h, h2, ne_eq, not_true_eq_false, if_false, true_and]
        refine ⟨?_, trivial⟩
        intro hlt
        exact Nat.mod_eq_of_lt hlt
      · intro hz
        simp [modeset_create_dumb, h, h2] at hz
    · intro hz
      simp [modeset_create_dumb, h, hret] at hz

/-- Witness of C6 amended: on the small device a 2 by 2 buffer gets the
handle 1, the pitch 8 and the size 16. -/
theorem modeset_create_dumb_alloc_witness :
    (modeset_create_dumb smallKernel 3 2 2 24 32 buffer_object.zero World.init).2.1.handle = 1
      ∧ (modeset_create_dumb smallKernel 3 2 2 24 32 buffer_object.zero World.init).2.1.pitch = 8
      ∧ (modeset_create_dumb smallKernel 3 2 2 24 32 buffer_object.zero World.init).2.1.size
          = 16 % 2 ^ 32
      ∧ (modeset_create_dumb smallKernel 3 2 2 24 32 buffer_object.zero World.init).2.1.size = 16 :=
  have h := ((modeset_create_dumb_alloc smallKernel 3 2 2 24 32 buffer_object.zero
    World.init).1 0
    { height := 2, width := 2, bpp := 32, flags := 0, handle := 1, pitch := 8, size := 16 }
    rfl).2 rfl
  ⟨h.2.1, h.2.2.1, h.2.2.2.1, h.2.2.2.2.1 (by decide)⟩

/-- C7: for every kernel buffer that was created (the creation call answered
0), `modeset_create_dumb` issues exactly one framebuffer registration
`drmModeAddFB2`, after the creation call, with the width, height, handle and
pitch the kernel returned, the format `DRM_FORMAT_XRGB8888`, the handle array
`[handle, 0, 0, 0]`, the pitch array `[pitch, 0, 0, 0]`, the offset array
`[0, 0, 0, 0]` and the flags 0; it returns -1 when the registration answers a
non-zero value, and otherwise returns 0 with the id the registration answered
in `fb_id`. -/
theorem modeset_create_dumb_registers_single_plane (k : Kernel) (fd : Int)
    (width height depth bpp : Nat) (bo : buffer_object) (w : World)
    (arg1 : drm_mode_create_dumb)
    (hcreate : k.ioctl_create_dumb fd
      { height := height, width := width, bpp := bpp, flags := 0, handle := 0, pitch := 0,
        size := 0 } = (0, arg1)) :
    ∃ log, (modeset_create_dumb k fd width height depth bpp bo w).2.2.trace
        = w.trace ++
          [Call.ioctl_create_dumb fd
             { height := height, width := width, bpp := bpp, flags := 0, handle := 0,
               pitch := 0, size := 0 },
           Call.ALOGD ("buffer object info [%d %u %u %u %u %u]"),
           Call.drmModeAddFB2 fd arg1.width arg1.height DRM_FORMAT_XRGB8888
             [arg1.handle, 0, 0, 0] [arg1.pitch, 0, 0, 0] [0, 0, 0, 0] 0] ++ log
      ∧ (∀ c ∈ log, ∃ fmt, c = Call.ALOGD fmt)
      ∧ (modeset_create_dumb k fd width height depth bpp bo w).2.1.width = arg1.width
      ∧ (modeset_create_dumb k fd width height depth bpp bo w).2.1.height = arg1.height
      ∧ (modeset_create_dumb k fd width height depth bpp bo w).2.1.pixel_format
          = DRM_FORMAT_XRGB8888
      ∧ ((k.drmModeAddFB2 fd arg1.width arg1.height DRM_FORMAT_XRGB8888
            [arg1.handle, 0, 0, 0] [arg1.pitch, 0, 0, 0] [0, 0, 0, 0] 0).1 ≠ 0 →
          (modeset_create_dumb k fd width height depth bpp bo w).1 = -1)
      ∧ ((k.drmModeAddFB2 fd arg1.width arg1.height DRM_FORMAT_XRGB8888
            [arg1.handle, 0, 0, 0] [arg1.pitch, 0, 0, 0] [0, 0, 0, 0] 0).1 = 0 →
          (modeset_create_dumb k fd width height depth bpp bo w).1 = 0
          ∧ (modeset_create_dumb k fd width height depth bpp bo w).2.1.fb_id
            = (k.drmModeAddFB2 fd arg1.width arg1.height DRM_FORMAT_XRGB8888
                [arg1.handle, 0, 0, 0] [arg1.pitch, 0, 0, 0] [0, 0, 0, 0] 0).2) := by
  by_cases h2 : (k.drmModeAddFB2 fd arg1.width arg1.height DRM_FORMAT_XRGB8888
      [arg1.handle, 0, 0, 0] [arg1.pitch, 0, 0, 0] [0, 0, 0, 0] 0).1 = 0
  · refine ⟨[], ?_, by simp, ?_, ?_, ?_, ?_, ?_⟩ <;>
      simp [modeset_create_dumb, hcreate, h2, World.emit]
  · refine ⟨[Call.ALOGD ("Failed to drmModeAddFB: %s")], ?_, by simp, ?_, ?_, ?_, ?_, ?_⟩ <;>
      simp [modeset_create_dumb, hcreate, h2, World.emit]

/-- Witness of C7: the registration the small device receives for a 2 by 2
buffer. -/
theorem modeset_create_dumb_registers_single_plane_witness :
    ∃ log, (modeset_create_dumb smallKernel 3 2 2 24 32 buffer_object.zero World.init).2.2.trace
        = World.init.trace ++
          [Call.ioctl_create_dumb 3
             { height := 2, width := 2, bpp := 32, flags := 0, handle := 0, pitch := 0,
               size := 0 },
           Call.ALOGD ("buffer object info [%d %u %u %u %u %u]"),
           Call.drmModeAddFB2 3 2 2 DRM_FORMAT_XRGB8888 [1, 0, 0, 0] [8, 0, 0, 0] [0, 0, 0, 0] 0]
          ++ log
      ∧ (∀ c ∈ log, ∃ fmt, c = Call.ALOGD fmt) :=
  have h := modeset_create_dumb_registers_single_plane smallKernel 3 2 2 24 32
    buffer_object.zero World.init
    { height := 2, width := 2, bpp := 32, flags := 0, handle := 1, pitch := 8, size := 16 } rfl
  h.imp (fun _ hl => ⟨hl.1, hl.2.1⟩)


/-- The calls of lines 239 to 248 of `main`, for whatever values the locals
`property_active`, `property_mode_id`, `property_crtc_id` and `blob_id` hold:
the allocation of the request, three additions, one commit of the request
made of these three triples with the flag `DRM_MODE_ATOMIC_ALLOW_MODESET`,
then the release of the request, whatever the commit answered. -/
theorem main_atomic_commit_request (k : Kernel) (fd : Int) (conn_id crtc_id : Nat)
    (p : Resolved) (w : World) :
    (main_atomic_commit k fd conn_id crtc_id p w).trace
        = w.trace ++
          [Call.drmModeAtomicAlloc,
           Call.drmModeAtomicAddProperty crtc_id p.property_active 1,
           Call.drmModeAtomicAddProperty crtc_id p.property_mode_id p.blob_id,
           Call.drmModeAtomicAddProperty conn_id p.property_crtc_id crtc_id,
           Call.drmModeAtomicCommit fd
             [(crtc_id, p.property_active, 1), (crtc_id, p.property_mode_id, p.blob_id),
              (conn_id, p.property_crtc_id, crtc_id)]
             DRM_MODE_ATOMIC_ALLOW_MODESET,
           Call.drmModeAtomicFree
             [(crtc_id, p.property_active, 1), (crtc_id, p.property_mode_id, p.blob_id),
              (conn_id, p.property_crtc_id, crtc_id)],
           Call.printf ("drmModeAtomicCommit SetCrtc\n"),
           Call.getchar]
      ∧ ((main_atomic_commit k fd conn_id crtc_id p w).trace.filter Call.isAtomicCommit).length
          = (w.trace.filter Call.isAtomicCommit).length + 1 := by
  constructor
  · simp [main_atomic_commit, drmModeAtomicAddProperty, World.emit]
  · simp [main_atomic_commit, drmModeAtomicAddProperty, World.emit, Call.isAtomicCommit]

/-- An atomic commit is a call on an atomic request. -/
theorem isAtomicRequestCall_of_isAtomicCommit (c : Call) (h : c.isAtomicCommit = true) :
    c.isAtomicRequestCall = true := by
  cases c <;> first | rfl | cases h

/-- The calls `get_property_id` issues are fetches and releases of properties:
none of them acts on an atomic request. -/
theorem get_property_id_loop_trace (k : Kernel) (fd : Int) (name : String) :
    ∀ (props : List Nat) (id : Nat) (w : World) (r : Nat) (w1 : World),
      get_property_id_loop k fd name props id w = some (r, w1) →
      ∃ ev, w1.trace = w.trace ++ ev ∧ ev.filter Call.isAtomicRequestCall = [] := by
  intro props
  induction props with
  | nil =>
    intro id w r w1 h
    simp only [get_property_id_loop, Option.some.injEq, Prod.mk.injEq] at h
    obtain ⟨_, rfl⟩ := h
    exact ⟨[], by simp, rfl⟩
  | cons p rest ih =>
    intro id w r w1 h
    cases hq : k.drmModeGetProperty fd p with
    | none => simp [get_property_id_loop, hq] at h
    | some q =>
      simp only [get_property_id_loop, hq] at h
      generalize (if q.name = name then q.prop_id else id) = id1 at h
      by_cases hz : id1 = 0
      · simp only [hz, ne_eq, not_true_eq_false, if_false] at h
        obtain ⟨ev, hev, hf⟩ := ih _ _ r w1 h
        refine ⟨[Call.drmModeGetProperty fd p, Call.drmModeFreeProperty q] ++ ev, ?_, ?_⟩
        · rw [hev]; simp [World.emit]
        · simp [List.filter_append, hf, Call.isAtomicRequestCall]
      · simp only [ne_eq, hz, not_false_eq_true, if_true, Option.some.injEq,
          Prod.mk.injEq] at h
        obtain ⟨_, rfl⟩ := h
        exact ⟨[Call.drmModeGetProperty fd p, Call.drmModeFreeProperty q],
          by simp [World.emit], by simp [Call.isAtomicRequestCall]⟩

/-- C8: the atomic mode-switch flow of `main` (lines 222 to 248), for every
answer of the kernel under which the property lists of the connector and of
the CRTC and their properties can be fetched.  The resolution completes; the
local `property_crtc_id` is the id `get_property_id` finds for the name
`CRTC_ID` among the properties of the connector, `property_active` and
`property_mode_id` are the ids it finds for `ACTIVE` and `MODE_ID` among the
properties of the CRTC (the id of the first property with the name and a
non-zero id, which is the first property with the name when no id is 0), and
`blob_id` is the id of the blob created from `connector->modes[0]`.  The
resolution issues no call on an atomic request.  After it the calls are, in
this order: the allocation of the request, the additions `(crtc, ACTIVE, 1)`,
`(crtc, MODE_ID, blob)` and `(connector, CRTC_ID, crtc)`, one commit of the
request made of exactly these three triples in this order with the flag
`DRM_MODE_ATOMIC_ALLOW_MODESET`, and the release of the request, whatever the
commit answered; the flow commits exactly once. -/
theorem main_modeset_request (k : Kernel) (s : Setup) (w : World)
    (conn_props crtc_props : List Nat)
    (conn_properties crtc_properties : List drmModePropertyRes)
    (hconn : k.drmModeObjectGetProperties s.fd s.conn_id DRM_MODE_OBJECT_CONNECTOR
      = some conn_props)
    (hcrtc : k.drmModeObjectGetProperties s.fd s.crtc_id DRM_MODE_OBJECT_CRTC
      = some crtc_props)
    (hconn_fetch : conn_props.map (k.drmModeGetProperty s.fd) = conn_properties.map some)
    (hcrtc_fetch : crtc_props.map (k.drmModeGetProperty s.fd) = crtc_properties.map some) :
    ∃ p w1 w2 pre,
      main_resolve k s w = some (p, w1)
      ∧ main_modeset k s w = some (p, w2)
      ∧ p.property_crtc_id = firstNamedNonzero conn_properties ("CRTC_ID")
      ∧ p.property_active = firstNamedNonzero crtc_properties ("ACTIVE")
      ∧ p.property_mode_id = firstNamedNonzero crtc_properties ("MODE_ID")
      ∧ ((∀ q ∈ conn_properties ++ crtc_properties, q.prop_id ≠ 0) →
          p.property_crtc_id = firstNamed conn_properties ("CRTC_ID")
          ∧ p.property_active = firstNamed crtc_properties ("ACTIVE")
          ∧ p.property_mode_id = firstNamed crtc_properties ("MODE_ID"))
      ∧ p.blob_id = (if (k.drmModeCreatePropertyBlob s.fd s.mode).1 = 0
          then (k.drmModeCreatePropertyBlob s.fd s.mode).2 else 0)
      ∧ w1.trace = w.trace ++ pre
      ∧ pre.filter Call.isAtomicRequestCall = []
      ∧ w2.trace = w1.trace ++
          [Call.drmModeAtomicAlloc,
           Call.drmModeAtomicAddProperty s.crtc_id
             (firstNamedNonzero crtc_properties ("ACTIVE")) 1,
           Call.drmModeAtomicAddProperty s.crtc_id
             (firstNamedNonzero crtc_properties ("MODE_ID")) p.blob_id,
           Call.drmModeAtomicAddProperty s.conn_id
             (firstNamedNonzero conn_properties ("CRTC_ID")) s.crtc_id,
           Call.drmModeAtomicCommit s.fd
             [(s.crtc_id, firstNamedNonzero crtc_properties ("ACTIVE"), 1),
              (s.crtc_id, firstNamedNonzero crtc_properties ("MODE_ID"), p.blob_id),
              (s.conn_id, firstNamedNonzero conn_properties ("CRTC_ID"), s.crtc_id)]
             DRM_MODE_ATOMIC_ALLOW_MODESET,
           Call.drmModeAtomicFree
             [(s.crtc_id, firstNamedNonzero crtc_properties ("ACTIVE"), 1),
              (s.crtc_id, firstNamedNonzero crtc_properties ("MODE_ID"), p.blob_id),
              (s.conn_id, firstNamedNonzero conn_properties ("CRTC_ID"), s.crtc_id)],
           Call.printf ("drmModeAtomicCommit SetCrtc\n"),
           Call.getchar]
      ∧ (w2.trace.filter Call.isAtomicCommit).length
          = (w.trace.filter Call.isAtomicCommit).length + 1 := by
  obtain ⟨wa, ha⟩ := get_property_id_loop_spec k s.fd ("CRTC_ID") conn_props conn_properties
    ((w.emit (.drmSetClientCap s.fd DRM_CLIENT_CAP_ATOMIC 1)).emit
      (.drmModeObjectGetProperties s.fd s.conn_id DRM_MODE_OBJECT_CONNECTOR)) hconn_fetch
  obtain ⟨wb, hb⟩ := get_property_id_loop_spec k s.fd ("ACTIVE") crtc_props crtc_properties
    ((wa.emit (.drmModeFreeObjectProperties conn_props)).emit
      (.drmModeObjectGetProperties s.fd s.crtc_id DRM_MODE_OBJECT_CRTC)) hcrtc_fetch
  obtain ⟨wc, hc⟩ := get_property_id_loop_spec k s.fd ("MODE_ID") crtc_props crtc_properties
    wb hcrtc_fetch
  obtain ⟨eva, hta, hfa⟩ := get_property_id_loop_trace k s.fd _ _ _ _ _ _ ha
  obtain ⟨evb, htb, hfb⟩ := get_property_id_loop_trace k s.fd _ _ _ _ _ _ hb
  obtain ⟨evc, htc, hfc⟩ := get_property_id_loop_trace k s.fd _ _ _ _ _ _ hc
  have hres : main_resolve k s w = some
      ({ property_crtc_id := firstNamedNonzero conn_properties ("CRTC_ID"),
         property_active := firstNamedNonzero crtc_properties ("ACTIVE"),
         property_mode_id := firstNamedNonzero crtc_properties ("MODE_ID"),
         blob_id := if (k.drmModeCreatePropertyBlob s.fd s.mode).1 = 0
           then (k.drmModeCreatePropertyBlob s.fd s.mode).2 else 0 },
       (wc.emit (.drmModeFreeObjectProperties crtc_props)).emit
         (.drmModeCreatePropertyBlob s.fd s.mode)) := by
    simp only [main_resolve, get_property_id, hconn, hcrtc, ha, hb, hc]
  have hpre : ((wc.emit (.drmModeFreeObjectProperties crtc_props)).emit
        (.drmModeCreatePropertyBlob s.fd s.mode)).trace
      = w.trace ++
        ([Call.drmSetClientCap s.fd DRM_CLIENT_CAP_ATOMIC 1,
          Call.drmModeObjectGetProperties s.fd s.conn_id DRM_MODE_OBJECT_CONNECTOR] ++ eva
         ++ [Call.drmModeFreeObjectProperties conn_props,
             Call.drmModeObjectGetProperties s.fd s.crtc_id DRM_MODE_OBJECT_CRTC] ++ evb ++ evc
         ++ [Call.drmModeFreeObjectProperties crtc_props,
             Call.drmModeCreatePropertyBlob s.fd s.mode]) := by
    simp only [World.emit, htc, htb, hta]
    simp
  have hnz : (∀ q ∈ conn_properties ++ crtc_properties, q.prop_id ≠ 0) →
      firstNamedNonzero conn_properties ("CRTC_ID") = firstNamed conn_properties ("CRTC_ID")
      ∧ firstNamedNonzero crtc_properties ("ACTIVE") = firstNamed crtc_properties ("ACTIVE")
      ∧ firstNamedNonzero crtc_properties ("MODE_ID")
          = firstNamed crtc_properties ("MODE_ID") := by
    intro h
    have h1 : ∀ q ∈ conn_properties, q.prop_id ≠ 0 :=
      fun q hq => h q (List.mem_append_left _ hq)
    have h2 : ∀ q ∈ crtc_properties, q.prop_id ≠ 0 :=
      fun q hq => h q (List.mem_append_right _ hq)
    exact ⟨firstNamedNonzero_eq_firstNamed _ _ h1, firstNamedNonzero_eq_firstNamed _ _ h2,
      firstNamedNonzero_eq_firstNamed _ _ h2⟩
  obtain ⟨p, w1, pre, hres1, hp1, hp2, hp3, hp4, hw1, hfpre⟩ :
      ∃ (p : Resolved) (w1 : World) (pre : List Call), main_resolve k s w = some (p, w1)
        ∧ p.property_crtc_id = firstNamedNonzero conn_properties ("CRTC_ID")
        ∧ p.property_active = firstNamedNonzero crtc_properties ("ACTIVE")
        ∧ p.property_mode_id = firstNamedNonzero crtc_properties ("MODE_ID")
        ∧ p.blob_id = (if (k.drmModeCreatePropertyBlob s.fd s.mode).1 = 0
            then (k.drmModeCreatePropertyBlob s.fd s.mode).2 else 0)
        ∧ w1.trace = w.trace ++ pre
        ∧ pre.filter Call.isAtomicRequestCall = [] :=
    ⟨_, _, _, hres, rfl, rfl, rfl, rfl, hpre,
      by simp [List.filter_append, hfa, hfb, hfc, Call.isAtomicRequestCall]⟩
  have hno : pre.filter Call.isAtomicCommit = [] := by
    rw [List.filter_eq_nil_iff] at hfpre ⊢
    intro c hc hcom
    exact hfpre c hc (isAtomicRequestCall_of_isAtomicCommit c hcom)
  refine ⟨p, w1, main_atomic_commit k s.fd s.conn_id s.crtc_id p w1, pre, hres1, ?_, hp1, hp2,
    hp3, ?_, hp4, hw1, hfpre, ?_, ?_⟩
  · simp only [main_modeset, hres1]
  · intro h
    rw [hp1, hp2, hp3]
    exact hnz h
  · simp [main_atomic_commit, drmModeAtomicAddProperty, World.emit, hp1, hp2, hp3]
  · simp [main_atomic_commit, drmModeAtomicAddProperty, World.emit, hw1, List.filter_append,
      hno, Call.isAtomicCommit]

/-- Witness of C8: on the small device the connector has the property
`CRTC_ID` with the id 20, the CRTC has `ACTIVE` with the id 22 and `MODE_ID`
with the id 23, and the blob gets the id 77. -/
theorem main_modeset_request_witness :
    ∃ p w1 w2, main_resolve smallKernel smallSetup World.init = some (p, w1)
      ∧ main_modeset smallKernel smallSetup World.init = some (p, w2)
      ∧ p.property_crtc_id = 20 ∧ p.property_active = 22 ∧ p.property_mode_id = 23
      ∧ p.blob_id = 77
      ∧ w2.trace = w1.trace ++
          [Call.drmModeAtomicAlloc,
           Call.drmModeAtomicAddProperty 31 22 1,
           Call.drmModeAtomicAddProperty 31 23 77,
           Call.drmModeAtomicAddProperty 33 20 31,
           Call.drmModeAtomicCommit 3 [(31, 22, 1), (31, 23, 77), (33, 20, 31)]
             DRM_MODE_ATOMIC_ALLOW_MODESET,
           Call.drmModeAtomicFree [(31, 22, 1), (31, 23, 77), (33, 20, 31)],
           Call.printf ("drmModeAtomicCommit SetCrtc\n"),
           Call.getchar] :=
  have h := main_modeset_request smallKernel smallSetup World.init [20] [22, 23]
    [{ prop_id := 20, name := "CRTC_ID" }]
    [{ prop_id := 22, name := "ACTIVE" }, { prop_id := 23, name := "MODE_ID" }]
    (by decide) (by decide) (by decide) (by decide)
  match h with
  | ⟨p, w1, w2, _, h1, h2, h3, h4, h5, _, h6, _, _, h7, _⟩ =>
    ⟨p, w1, w2, h1, h2, h3.trans (by decide), h4.trans (by decide), h5.trans (by decide),
      h6.trans (by decide), by rw [h7, h6]; rfl⟩

/-- C9, the claim as stated fails: on a device whose connector and CRTC expose
no property, the three resolutions yield 0 and `main` still adds three triples
with the property id 0 and issues the commit. -/
theorem main_commits_zero_property_ids :
    (main_setup bareKernel World.init).setup? = some smallSetup
      ∧ (main_resolve bareKernel smallSetup World.init).map Prod.fst
          = some { property_crtc_id := 0, property_active := 0, property_mode_id := 0,
                   blob_id := 77 }
      ∧ (main bareKernel World.init).map
          (fun r => r.2.trace.filter (fun c => c.addsZeroProperty || c.isAtomicCommit))
        = some
          [Call.drmModeAtomicAddProperty 31 0 1,
           Call.drmModeAtomicAddProperty 31 0 77,
           Call.drmModeAtomicAddProperty 33 0 31,
           Call.drmModeAtomicCommit 3 [(31, 0, 1), (31, 0, 77), (33, 0, 31)]
             DRM_MODE_ATOMIC_ALLOW_MODESET] := by
  decide

/-- C9, amended: the atomic mode-switch flow does not test the resolved ids.
Whenever the three resolutions complete, whatever ids they yield, the flow
goes on to add the three triples with those ids and to issue the commit once;
so when a resolution yields 0, a triple with the property id 0 is added to the
request and the request is committed. -/
theorem main_modeset_commits_unchecked (k : Kernel) (s : Setup) (w w1 : World) (p : Resolved)
    (hres : main_resolve k s w = some (p, w1)) :
    ∃ w2, main_modeset k s w = some (p, w2)
      ∧ w2.trace = w1.trace ++
          [Call.drmModeAtomicAlloc,
           Call.drmModeAtomicAddProperty s.crtc_id p.property_active 1,
           Call.drmModeAtomicAddProperty s.crtc_id p.property_mode_id p.blob_id,
           Call.drmModeAtomicAddProperty s.conn_id p.property_crtc_id s.crtc_id,
           Call.drmModeAtomicCommit s.fd
             [(s.crtc_id, p.property_active, 1), (s.crtc_id, p.property_mode_id, p.blob_id),
              (s.conn_id, p.property_crtc_id, s.crtc_id)]
             DRM_MODE_ATOMIC_ALLOW_MODESET,
           Call.drmModeAtomicFree
             [(s.crtc_id, p.property_active, 1), (s.crtc_id, p.property_mode_id, p.blob_id),
              (s.conn_id, p.property_crtc_id, s.crtc_id)],
           Call.printf ("drmModeAtomicCommit SetCrtc\n"),
           Call.getchar]
      ∧ ((p.property_crtc_id = 0 ∨ p.property_active = 0 ∨ p.property_mode_id = 0) →
          (∃ c ∈ w2.trace, c.addsZeroProperty = true)
          ∧ (∃ c ∈ w2.trace, c.isAtomicCommit = true)) := by
  refine ⟨main_atomic_commit k s.fd s.conn_id s.crtc_id p w1, ?_, ?_, ?_⟩
  · simp [main_modeset, hres]
  · simp [main_atomic_commit, drmModeAtomicAddProperty, World.emit]
  · intro hz
    constructor
    · rcases hz with hz | hz | hz
      · exact ⟨Call.drmModeAtomicAddProperty s.conn_id p.property_crtc_id s.crtc_id,
          by simp [main_atomic_commit, World.emit], by simp [Call.addsZeroProperty, hz]⟩
      · exact ⟨Call.drmModeAtomicAddProperty s.crtc_id p.property_active 1,
          by simp [main_atomic_commit, World.emit], by simp [Call.addsZeroProperty, hz]⟩
      · exact ⟨Call.drmModeAtomicAddProperty s.crtc_id p.property_mode_id p.blob_id,
          by simp [main_atomic_commit, World.emit], by simp [Call.addsZeroProperty, hz]⟩
    · exact ⟨Call.drmModeAtomicCommit s.fd
          [(s.crtc_id, p.property_active, 1), (s.crtc_id, p.property_mode_id, p.blob_id),
           (s.conn_id, p.property_crtc_id, s.crtc_id)] DRM_MODE_ATOMIC_ALLOW_MODESET,
        by simp [main_atomic_commit, drmModeAtomicAddProperty, World.emit],
        by simp [Call.isAtomicCommit]⟩

/-- Witness of C9 amended: the device without properties, where the three
resolutions yield 0. -/
theorem main_modeset_commits_unchecked_witness :
    ∃ w2, main_modeset bareKernel smallSetup World.init
        = some ({ property_crtc_id := 0, property_active := 0, property_mode_id := 0,
                  blob_id := 77 }, w2)
      ∧ (∃ c ∈ w2.trace, c.addsZeroProperty = true)
      ∧ (∃ c ∈ w2.trace, c.isAtomicCommit = true) :=
  have h := main_modeset_commits_unchecked bareKernel smallSetup World.init
    (World.init.emit (.drmSetClientCap 3 DRM_CLIENT_CAP_ATOMIC 1)
      |>.emit (.drmModeObjectGetProperties 3 33 DRM_MODE_OBJECT_CONNECTOR)
      |>.emit (.drmModeFreeObjectProperties [])
      |>.emit (.drmModeObjectGetProperties 3 31 DRM_MODE_OBJECT_CRTC)
      |>.emit (.drmModeFreeObjectProperties [])
      |>.emit (.drmModeCreatePropertyBlob 3 { hdisplay := 2, vdisplay := 2 }))
    { property_crtc_id := 0, property_active := 0, property_mode_id := 0, blob_id := 77 } rfl
  h.imp (fun _ hw => ⟨hw.1, hw.2.2 (Or.inl rfl)⟩)

/-- C10, the claim as stated fails: on the small device the buffer is 2 by 2
pixels, the fixed source rectangle of the atomic demo has its corner at
320 by 320 pixels, beyond the buffer, and `main` sends it to the kernel in
`drmModeSetPlane`. -/
theorem main_sends_oversized_source_rect :
    (main_setup smallKernel World.init).setup? = some smallSetup
      ∧ smallSetup.buf.width = 2 ∧ smallSetup.buf.height = 2
      ∧ srcRectExceeds smallSetup.buf.width smallSetup.buf.height 0 0 (320 <<< 16) (320 <<< 16)
      ∧ (main smallKernel World.init).map (fun r => r.2.trace.filter Call.isSetPlane)
        = some [Call.drmModeSetPlane 3 35 31 42 0 50 50 320 320 0 0 (320 <<< 16) (320 <<< 16)] := by
  decide

/-- C10, amended: neither demo validates the source rectangle before the
kernel plane call.  For every buffer width and height the atomic demo issues
`drmModeSetPlane` with its fixed source rectangle of 320 by 320 pixels
(`320 << 16` in 16.16 units), also when that exceeds the buffer; the plane-test
demo issues it with the source rectangle `(buf.width << 16, buf.height << 16)`
computed in 32-bit arithmetic, and that rectangle never exceeds the buffer
bounds. -/
theorem main_set_plane_unvalidated (k : Kernel) (s : Setup) (w : World) :
    (main_set_plane k s w).trace = w.trace ++
        [Call.drmModeSetPlane s.fd s.plane_id s.crtc_id s.buf.fb_id 0 50 50 320 320 0 0
           (320 * 65536) (320 * 65536),
         Call.printf ("drmModeSetPlane\n"), Call.getchar]
      ∧ (srcRectExceeds s.buf.width s.buf.height 0 0 (320 * 65536) (320 * 65536)
          ↔ (s.buf.width < 320 ∨ s.buf.height < 320))
      ∧ (∃ log, (PlaneTest.main_set_plane k s w).trace = w.trace ++
          [Call.drmModeSetPlane s.fd s.plane_id s.crtc_id s.buf.fb_id 0 480 270 960 540 0 0
             ((s.buf.width * 65536) % 2 ^ 32) ((s.buf.height * 65536) % 2 ^ 32)] ++ log
          ∧ (log.filter Call.isSetPlane = []))
      ∧ ¬ srcRectExceeds s.buf.width s.buf.height 0 0
          ((s.buf.width * 65536) % 2 ^ 32) ((s.buf.height * 65536) % 2 ^ 32) := by
  refine ⟨?_, ?_, ?_, ?_⟩
  · simp [main_set_plane, World.emit, Nat.shiftLeft_eq]
  · unfold srcRectExceeds; omega
  · by_cases hr : k.drmModeSetPlane s.fd s.plane_id s.crtc_id s.buf.fb_id 0 480 270 960 540
        (0 <<< 16) (0 <<< 16) ((s.buf.width <<< 16) % 2 ^ 32)
        ((s.buf.height <<< 16) % 2 ^ 32) = 0
    · refine ⟨[Call.getchar], ?_, by simp [Call.isSetPlane]⟩
      simp [Nat.shiftLeft_eq] at hr
      simp [PlaneTest.main_set_plane, hr, World.emit, Nat.shiftLeft_eq]
    · refine ⟨[Call.ALOGE ("failed to drmModeSetPlane: %s\n"), Call.getchar], ?_,
        by simp [Call.isSetPlane]⟩
      simp [Nat.shiftLeft_eq] at hr
      simp [PlaneTest.main_set_plane, hr, World.emit, Nat.shiftLeft_eq]
  · unfold srcRectExceeds; omega

/-- C11: `modeset_destroy` leaves every field of the buffer object unchanged,
so `fb_id`, `handle` and `vaddr` keep their values, after one call and after
two; it is therefore not idempotent.  Whatever the kernel answers to the first
and to the second call, the second call issues the calls of the first once
more: the framebuffer removal when `fb_id` is not zero, then the kernel-buffer
free, for the same ids.  For every buffer with a non-zero `fb_id` the calls of
two destroys in a row are `drmModeRmFB(fd, fb_id)`, the free of `handle`, log
lines, `drmModeRmFB(fd, fb_id)` again and the free of `handle` again, and the
calls after the second destroy differ from those after the first, whereas a
second `modeset_unmap` adds no call to those of the first. -/
theorem modeset_destroy_repeats_calls (k1 k2 : Kernel) (bo : buffer_object) (w : World) :
    (modeset_destroy k1 bo w).1 = bo
      ∧ (modeset_destroy k2 (modeset_destroy k1 bo w).1 (modeset_destroy k1 bo w).2).1 = bo
      ∧ (∃ log1 log2,
          (∀ c ∈ log1 ++ log2, ∃ fmt, c = Call.ALOGE fmt)
          ∧ (modeset_destroy k1 bo w).2.trace
              = w.trace
                ++ (if bo.fb_id ≠ 0 then [Call.drmModeRmFB bo.fd bo.fb_id] else [])
                ++ [Call.ioctl_destroy_dumb bo.fd { handle := bo.handle }] ++ log1
          ∧ (modeset_destroy k2 (modeset_destroy k1 bo w).1 (modeset_destroy k1 bo w).2).2.trace
              = (modeset_destroy k1 bo w).2.trace
                ++ (if bo.fb_id ≠ 0 then [Call.drmModeRmFB bo.fd bo.fb_id] else [])
                ++ [Call.ioctl_destroy_dumb bo.fd { handle := bo.handle }] ++ log2
          ∧ (bo.fb_id ≠ 0 →
              (modeset_destroy k2 (modeset_destroy k1 bo w).1
                  (modeset_destroy k1 bo w).2).2.trace
                = w.trace
                  ++ [Call.drmModeRmFB bo.fd bo.fb_id,
                      Call.ioctl_destroy_dumb bo.fd { handle := bo.handle }] ++ log1
                  ++ [Call.drmModeRmFB bo.fd bo.fb_id,
                      Call.ioctl_destroy_dumb bo.fd { handle := bo.handle }] ++ log2))
      ∧ (bo.fb_id ≠ 0 →
          ((modeset_destroy k2 (modeset_destroy k1 bo w).1
              (modeset_destroy k1 bo w).2).2.trace.filter Call.isRmFB).length
            = (w.trace.filter Call.isRmFB).length + 2)
      ∧ ((modeset_destroy k2 (modeset_destroy k1 bo w).1
            (modeset_destroy k1 bo w).2).2.trace.filter Call.isDestroyDumb).length
          = (w.trace.filter Call.isDestroyDumb).length + 2
      ∧ (modeset_destroy k2 (modeset_destroy k1 bo w).1 (modeset_destroy k1 bo w).2).2.trace
          ≠ (modeset_destroy k1 bo w).2.trace
      ∧ (modeset_unmap (modeset_unmap (some bo) w).1 (modeset_unmap (some bo) w).2).2.trace
          = (modeset_unmap (some bo) w).2.trace := by
  have hbo : ∀ (k : Kernel) (b : buffer_object) (v : World), (modeset_destroy k b v).1 = b := by
    intro k b v
    unfold modeset_destroy
    dsimp only
    split <;> rfl
  have htr : ∀ (k : Kernel) (b : buffer_object) (v : World),
      ∃ log, (∀ c ∈ log, ∃ fmt, c = Call.ALOGE fmt)
        ∧ (log.filter Call.isRmFB = []) ∧ (log.filter Call.isDestroyDumb = [])
        ∧ (modeset_destroy k b v).2.trace
          = v.trace ++ (if b.fb_id ≠ 0 then [Call.drmModeRmFB b.fd b.fb_id] else [])
            ++ [Call.ioctl_destroy_dumb b.fd { handle := b.handle }] ++ log := by
    intro k b v
    by_cases hr : k.ioctl_destroy_dumb b.fd { handle := b.handle } = 0
    · refine ⟨[], by simp, rfl, rfl, ?_⟩
      by_cases hf : b.fb_id = 0 <;> simp [modeset_destroy, hr, hf, World.emit]
    · refine ⟨[Call.ALOGE ("failed to destroy dumb buffer: %s\n")], by simp,
        by simp [Call.isRmFB], by simp [Call.isDestroyDumb], ?_⟩
      by_cases hf : b.fb_id = 0 <;> simp [modeset_destroy, hr, hf, World.emit]
  obtain ⟨log1, hl1, hr1, hd1, h1⟩ := htr k1 bo w
  obtain ⟨log2, hl2, hr2, hd2, h2⟩ := htr k2 bo (modeset_destroy k1 bo w).2
  rw [hbo k1 bo w]
  refine ⟨rfl, hbo k2 bo _, ⟨log1, log2, ?_, h1, h2, ?_⟩, ?_, ?_, ?_, ?_⟩
  · intro c hc
    rcases List.mem_append.mp hc with hc | hc
    · exact hl1 c hc
    · exact hl2 c hc
  · intro hf
    rw [h2, h1]
    simp [hf]
  · intro hf
    rw [h2, h1]
    simp [hf, List.filter_append, hr1, hr2, Call.isRmFB]
  · rw [h2, h1]
    by_cases hf : bo.fb_id = 0 <;>
      simp [hf, List.filter_append, hd1, hd2, Call.isDestroyDumb]
  · rw [h2]
    intro heq
    have := congrArg List.length heq
    simp at this
  · by_cases hv : bo.vaddr = 0 <;> simp [modeset_unmap, hv]

/-- Witness of C11: two destroys in a row of the 8-byte buffer, whose `fb_id`
is 42, on the small device. -/
theorem modeset_destroy_repeats_calls_witness :
    (modeset_destroy smallKernel buf8 World.init).1 = buf8
      ∧ ((modeset_destroy smallKernel (modeset_destroy smallKernel buf8 World.init).1
            (modeset_destroy smallKernel buf8 World.init).2).2.trace.filter
              Call.isRmFB).length
          = (World.init.trace.filter Call.isRmFB).length + 2
      ∧ (modeset_destroy smallKernel (modeset_destroy smallKernel buf8 World.init).1
            (modeset_destroy smallKernel buf8 World.init).2).2.trace
          ≠ (modeset_destroy smallKernel buf8 World.init).2.trace :=
  have h := modeset_destroy_repeats_calls smallKernel smallKernel buf8 World.init
  ⟨h.1, h.2.2.2.1 (by decide), h.2.2.2.2.2.1⟩

end DrmStudy
